import Mathlib

/-!
# Verification of the mock movie/TV/restaurant recommender

Shallow embedding of the parts of the repository that the checked claims
talk about:

* `src/common/tmdbService.ts` (remote catalog client): `fetchTMDB`, the
  endpoint wrappers, the process-wide genre-list caches and the genre-id
  mapping helpers.
* `src/cli/movie.ts` (interactive movie CLI): the session-persistent
  exclusion set, its seeding from the rating history, and the one-by-one
  presentation loop.
* `src/db/restaurantDb.ts`: `saveRestaurantToDb` over an explicit model of
  the `restaurants` table.
* `src/index.ts`: the startup sequence of `main()`.
* The recommendation engine (`src/movies/recommender.ts`) is not part of
  the available sources; where a claim depends on it, it is modelled from
  the specification (sections 4.1, 4.2 and 4.4) and marked as such.

Stateful TypeScript is embedded as explicit state passing; `async`
functions that can observe remote failures take the remote outcome as an
explicit argument (an oracle value); JavaScript exceptions are embedded as
`Except` values, and catching is an explicit `match`.
-/

namespace Recommender

/-! ## Data model -/

/-- A genre record `{ id, name }` as returned by the TMDB genre list
(`src/common/tmdbService.ts`, type `Genre`). -/
structure Genre where
  id : Nat
  name : String
deriving DecidableEq, Repr

/-- A catalog item (the internal `Movie` shape used by the CLI and, for the
fields the preference predicate reads, the TMDB movie record).  `id` is the
local database id, `tmdb_id` the remote identifier; `id = 0` or
`tmdb_id = 0` models the falsy ids the presentation loop skips.  Ratings
are modelled as exact rationals to avoid floating-point artifacts. -/
structure Movie where
  id : Nat
  tmdb_id : Nat
  title : String
  release_year : Option Int
  genres : List Genre
  original_language : Option String
  vote_average : Rat
  vote_count : Nat
  runtime : Option Nat
  providers : Option (List String)
deriving DecidableEq, Repr

/-- Per-user movie preferences, with the field names of
`UserMoviePreferences` (see `src/movies/mockUserPreference.ts` and the
preference editor in `src/cli/movie.ts`).  Every field is independently
optional; an absent field imposes no constraint. -/
structure UserMoviePreferences where
  preferred_genres : Option (List String) := none
  preferred_languages : Option (List String) := none
  release_year_min : Option Int := none
  release_year_max : Option Int := none
  duration_min_minutes : Option Nat := none
  duration_max_minutes : Option Nat := none
  min_imdb_rating : Option Rat := none
  preferred_streaming_providers : Option (List String) := none
deriving DecidableEq, Repr

/-! ## Preference predicate and recommendation engine

`src/movies/recommender.ts` is not among the available source files, so
these definitions are modelled from the specification. -/

/-- Modelled from the spec: the pure preference predicate
`matches(item, prefs)` of section 4.2 (the recommender source is not
available).  A constraint is active only when the preference field is set;
genre and provider use intersection (OR) semantics; a missing item field
fails an active year / duration / rating / provider / language constraint;
a zero-vote item fails an active minimum-rating constraint. -/
def matchesPrefs (m : Movie) (p : UserMoviePreferences) : Bool :=
  (match p.preferred_genres with
   | none => true
   | some allow => m.genres.any (fun g => allow.contains g.name)) &&
  (match p.preferred_languages with
   | none => true
   | some allow =>
     match m.original_language with
     | some l => allow.contains l
     | none => false) &&
  (match p.release_year_min with
   | none => true
   | some lo =>
     match m.release_year with
     | some y => decide (lo ≤ y)
     | none => false) &&
  (match p.release_year_max with
   | none => true
   | some hi =>
     match m.release_year with
     | some y => decide (y ≤ hi)
     | none => false) &&
  (match p.duration_min_minutes with
   | none => true
   | some lo =>
     match m.runtime with
     | some d => decide (lo ≤ d)
     | none => false) &&
  (match p.duration_max_minutes with
   | none => true
   | some hi =>
     match m.runtime with
     | some d => decide (d ≤ hi)
     | none => false) &&
  (match p.min_imdb_rating with
   | none => true
   | some t => decide (m.vote_count ≠ 0) && decide (t ≤ m.vote_average)) &&
  (match p.preferred_streaming_providers with
   | none => true
   | some allow =>
     match m.providers with
     | some ps => ps.any (fun pr => allow.contains pr)
     | none => false)

/-- Walk the merged fetch results once, keeping an item exactly when its
remote id has not been seen before (`seen` accumulates the ids already
kept). -/
def mergeDedupAux : List Nat → List Movie → List Movie
  | _, [] => []
  | seen, m :: rest =>
    if seen.contains m.tmdb_id then mergeDedupAux seen rest
    else m :: mergeDedupAux (m.tmdb_id :: seen) rest

/-- Modelled from the spec: the merge step of the candidate aggregator
(section 4.1, step 4): de-duplicate by remote identifier, first-seen item
wins, relative order of first appearance preserved. -/
def mergeDedup (l : List Movie) : List Movie := mergeDedupAux [] l

/-- Modelled from the spec: the candidate aggregator (section 4.1).  The
argument lists the outcome of each remote fetch in issue order (similarity
fetches for each seed first, then popularity pages); a failed fetch
contributes nothing (`none` is skipped), and the successful pages are
concatenated and de-duplicated first-seen-wins. -/
def aggregate (fetches : List (Option (List Movie))) : List Movie :=
  mergeDedup (fetches.filterMap id).flatten

/-- Modelled from the spec: the recommendation engine composition
`recommend(user, prefs, exclusions)` of section 4.4, under the source name
`getMovieRecommendationsForUser` used by `src/cli/movie.ts`: aggregate,
filter through the preference predicate, then drop items whose remote id
is in the supplied exclusion set, keeping aggregator order. -/
def getMovieRecommendationsForUser (fetches : List (Option (List Movie)))
    (prefs : UserMoviePreferences) (excludeTmdbIds : List Nat) : List Movie :=
  ((aggregate fetches).filter (fun m => matchesPrefs m prefs)).filter
    (fun m => !(excludeTmdbIds.contains m.tmdb_id))

/-! ## The movie CLI presentation loop (`src/cli/movie.ts`)

The interactive loop `presentMovieRecommendationsOneByOne` is embedded as
a recursive function over the recommendation queue.  The user's reactions
are an explicit input list, one entry per displayed item; `Interaction` is
the resolved outcome of the inner prompt loop (a `[V]iew Details` choice
resolves to the outcome of the details screen, which is one of the same
four results, and adds to the exclusion set exactly when that outcome is
`liked` or `disliked`, so it needs no separate constructor). -/

/-- Resolved outcome of one interaction prompt in the presentation loop. -/
inductive Interaction where
  | liked
  | disliked
  | skipped
  | quit
deriving DecidableEq, Repr

/-- Whether an interaction outcome adds the item's `tmdb_id` to the
session-persistent exclusion set (`src/cli/movie.ts` lines 154-175:
like and dislike add, next/skip and quit do not). -/
def addsExclusion : Interaction → Bool
  | Interaction.liked => true
  | Interaction.disliked => true
  | Interaction.skipped => false
  | Interaction.quit => false

/-- The guard of `src/cli/movie.ts` lines 135-144: an item is displayed
only when it has truthy local and remote ids, its `tmdb_id` is not in the
session-persistent exclusion set, and it was not already shown inside the
current presentation loop. -/
def displayable (excl shown : List Nat) (m : Movie) : Bool :=
  (!(m.id == 0)) && (!(m.tmdb_id == 0)) &&
  (!(excl.contains m.tmdb_id)) && (!(shown.contains m.tmdb_id))

/-- The body of `presentMovieRecommendationsOneByOne`
(`src/cli/movie.ts` lines 132-190): pop the queue; skip invalid, excluded
or already-shown items without consuming user input; otherwise display the
item, record it as shown, and act on the user's resolved interaction
(like/dislike add the remote id to the persistent exclusion set and
continue, skip continues without touching the set, quit returns).  Returns
the displayed items in order together with the final persistent exclusion
set.  If the input list is exhausted at a display point the run stops
(there is no further user reaction to model). -/
def runPresent : List Movie → List Nat → List Nat → List Interaction →
    List Movie × List Nat
  | [], excl, _, _ => ([], excl)
  | m :: queue, excl, shown, inputs =>
    if displayable excl shown m then
      match inputs with
      | [] => ([], excl)
      | i :: rest =>
        match i with
        | Interaction.quit => ([m], excl)
        | _ =>
          let excl' := if addsExclusion i then m.tmdb_id :: excl else excl
          (m :: (runPresent queue excl' (m.tmdb_id :: shown) rest).1,
            (runPresent queue excl' (m.tmdb_id :: shown) rest).2)
    else
      runPresent queue excl shown inputs

/-- Caller-facing outcome of `presentMovieRecommendationsOneByOne`: either
the "No movie recommendations available" report (a normal return), or the
items that were presented together with the final exclusion set. -/
inductive PresentOutcome where
  | noRecommendationsReport
  | presented (displayed : List Movie) (finalExclusions : List Nat)
deriving DecidableEq, Repr

/-- `presentMovieRecommendationsOneByOne` (`src/cli/movie.ts` lines
112-195): an empty recommendation list is reported as "no recommendations
available" and the function returns normally; otherwise the one-by-one
loop runs. -/
def presentMovieRecommendationsOneByOne (recs : List Movie) (excl : List Nat)
    (inputs : List Interaction) : PresentOutcome :=
  if recs.isEmpty then PresentOutcome.noRecommendationsReport
  else
    PresentOutcome.presented (runPresent recs excl [] inputs).1
      (runPresent recs excl [] inputs).2

/-- Seeding of the session-persistent exclusion set in `runMovieCLI`
(`src/cli/movie.ts` lines 289-292): look up every rated local id in the
movie table, keep the ones that resolve, and collect their `tmdb_id`s.
Each session recomputes this set fresh from the persisted ratings. -/
def seedExclusions (ratedIds : List Nat) (lookup : Nat → Option Movie) : List Nat :=
  (ratedIds.filterMap lookup).map (fun m => m.tmdb_id)

/-- One user-visible event of a movie-CLI session that can touch the
session-persistent exclusion set (`src/cli/movie.ts` lines 306-360):
running a recommendation batch (menu option 1), rating a searched movie
(option 2, adds the id exactly when the entered rating is 1..5), or
reacting on the details screen of a searched movie (option 3, adds the id
exactly when the reaction is like or dislike). -/
inductive SessionEvent where
  | presentBatch (recs : List Movie) (inputs : List Interaction)
  | rateMovie (m : Movie) (rating : Nat)
  | viewDetails (m : Movie) (i : Interaction)
deriving Repr

/-- Effect of one session event: the movies it displays and the updated
session-persistent exclusion set. -/
def sessionEventRun (excl : List Nat) : SessionEvent → List Movie × List Nat
  | SessionEvent.presentBatch recs inputs => runPresent recs excl [] inputs
  | SessionEvent.rateMovie m r =>
      ([], if 1 ≤ r ∧ r ≤ 5 then m.tmdb_id :: excl else excl)
  | SessionEvent.viewDetails m i =>
      ([], if addsExclusion i then m.tmdb_id :: excl else excl)

/-- A whole movie-CLI session from a given exclusion set: thread the set
through the events, collecting every displayed movie in order. -/
def sessionRun : List Nat → List SessionEvent → List Movie × List Nat
  | excl, [] => ([], excl)
  | excl, e :: es =>
    ((sessionEventRun excl e).1 ++ (sessionRun (sessionEventRun excl e).2 es).1,
      (sessionRun (sessionEventRun excl e).2 es).2)

/-! ## The remote catalog client (`src/common/tmdbService.ts`) -/

/-- The two credential environment variables read at module load
(`src/common/tmdbService.ts` lines 9-10). -/
structure TMDBEnv where
  readAccessToken : Option String
  apiKeyV3 : Option String
deriving DecidableEq, Repr

/-- The guard of `fetchTMDB` lines 30-33: at least one credential is set. -/
def hasCredentials (env : TMDBEnv) : Bool :=
  env.readAccessToken.isSome || env.apiKeyV3.isSome

/-- Outcome of the underlying `fetch` call for one request: either the
transport layer threw, or a response arrived with a status code and a body
whose JSON parse either succeeds with a value or throws with a message. -/
inductive HttpResult (β : Type) where
  | transportError
  | response (status : Nat) (body : Except String β)

/-- A JavaScript exception as observed by `fetchTMDB`: thrown by `fetch`
itself or by `response.json()`. -/
inductive JsThrow where
  | networkError
  | parseError (msg : String)
deriving DecidableEq, Repr

/-- The `try` block of `fetchTMDB` (`src/common/tmdbService.ts` lines
75-98), with every JavaScript throw made explicit as an `Except.error`:
a transport failure throws; a non-2xx response logs (its error body is
parsed under an inner `.catch`, so that parse can never throw) and returns
`null`; a 204 returns the empty object; a 2xx body that fails to parse
throws; a 2xx body that parses returns the value. -/
def tryBlock {β : Type} (r : HttpResult β) (emptyVal : β) :
    Except JsThrow (Option β) :=
  match r with
  | HttpResult.transportError => Except.error JsThrow.networkError
  | HttpResult.response status body =>
    if 200 ≤ status ∧ status < 300 then
      if status = 204 then Except.ok (some emptyVal)
      else
        match body with
        | Except.ok v => Except.ok (some v)
        | Except.error msg => Except.error (JsThrow.parseError msg)
    else Except.ok none

/-- `fetchTMDB` (`src/common/tmdbService.ts` lines 24-103): with no
credential configured it logs and returns `null` immediately; otherwise it
runs the request and the surrounding `catch` turns every throw from the
`try` block into a logged `null` return.  The endpoint string only shapes
the URL and never the failure behaviour. -/
def fetchTMDB {β : Type} (env : TMDBEnv) (endpoint : String)
    (r : HttpResult β) (emptyVal : β) : Option β :=
  if hasCredentials env then
    match tryBlock r emptyVal with
    | Except.ok v => v
    | Except.error _ => none
  else
    let _ := endpoint
    none

/-- The paginated collection shape returned by TMDB list endpoints. -/
structure TMDBPaginatedResponse (α : Type) where
  page : Nat
  results : List α
  total_pages : Nat
  total_results : Nat
deriving DecidableEq, Repr

/-- Placeholder value standing for the empty object `{}` that `fetchTMDB`
returns on a 204 response when the expected type is a movie record. -/
def defaultMovie : Movie :=
  { id := 0, tmdb_id := 0, title := "", release_year := none, genres := [],
    original_language := none, vote_average := 0, vote_count := 0,
    runtime := none, providers := none }

/-- Empty paginated collection, the 204 placeholder for list endpoints. -/
def emptyPage : TMDBPaginatedResponse Movie :=
  { page := 0, results := [], total_pages := 0, total_results := 0 }

/-- `getMovieDetails` (`src/common/tmdbService.ts` lines 129-133): a thin
wrapper delegating to `fetchTMDB` on the `movie/{id}` endpoint. -/
def getMovieDetails (env : TMDBEnv) (movieId : Nat) (r : HttpResult Movie) :
    Option Movie :=
  fetchTMDB env ("movie/" ++ toString movieId) r defaultMovie

/-- `getPopularMovies` (lines 135-137): wrapper on `movie/popular`. -/
def getPopularMovies (env : TMDBEnv) (page : Nat)
    (r : HttpResult (TMDBPaginatedResponse Movie)) :
    Option (TMDBPaginatedResponse Movie) :=
  let _ := page
  fetchTMDB env "movie/popular" r emptyPage

/-- `getMovieRecommendations` (lines 145-147): wrapper on
`movie/{id}/recommendations`. -/
def getMovieRecommendations (env : TMDBEnv) (movieId page : Nat)
    (r : HttpResult (TMDBPaginatedResponse Movie)) :
    Option (TMDBPaginatedResponse Movie) :=
  let _ := page
  fetchTMDB env ("movie/" ++ toString movieId ++ "/recommendations") r emptyPage

/-! ## Genre list caches and genre-id mapping (`src/common/tmdbService.ts`) -/

/-- The parsed body of `genre/movie/list` / `genre/tv/list`; the `genres`
field may be absent from a malformed body (`none`), which the source
detects with the `response.genres` truthiness check (a present empty array
is truthy and is cached). -/
structure GenreListResponse where
  genres : Option (List Genre)
deriving DecidableEq, Repr

/-- `getMovieGenreList` (`src/common/tmdbService.ts` lines 227-237) over an
explicit cache state: with a populated cache it returns the cached list
without issuing any request (the third component records whether a fetch
was performed); with an empty cache it fetches, caches the list on a
successful response that carries a `genres` field, and on any failure
returns `[]` leaving the cache unpopulated. -/
def getMovieGenreList (cache : Option (List Genre)) (env : TMDBEnv)
    (r : HttpResult GenreListResponse) :
    List Genre × Option (List Genre) × Bool :=
  match cache with
  | some l => (l, some l, false)
  | none =>
    match fetchTMDB env "genre/movie/list" r { genres := none } with
    | some resp =>
      match resp.genres with
      | some gs => (gs, some gs, true)
      | none => ([], none, true)
    | none => ([], none, true)

/-- `getTvShowGenreList` (lines 239-249): the TV-show twin of
`getMovieGenreList`, with its own cache. -/
def getTvShowGenreList (cache : Option (List Genre)) (env : TMDBEnv)
    (r : HttpResult GenreListResponse) :
    List Genre × Option (List Genre) × Bool :=
  match cache with
  | some l => (l, some l, false)
  | none =>
    match fetchTMDB env "genre/tv/list" r { genres := none } with
    | some resp =>
      match resp.genres with
      | some gs => (gs, some gs, true)
      | none => ([], none, true)
    | none => ([], none, true)

/-- `mapMovieGenreIdsToObjects` (lines 251-257): an absent or empty id
list returns `[]` before any fetch; otherwise each id is looked up in the
full genre list (first match) and unresolved ids are dropped. -/
def mapMovieGenreIdsToObjects (genre_ids : Option (List Nat))
    (cache : Option (List Genre)) (env : TMDBEnv)
    (r : HttpResult GenreListResponse) :
    List Genre × Option (List Genre) × Bool :=
  match genre_ids with
  | none => ([], cache, false)
  | some ids =>
    if ids.isEmpty then ([], cache, false)
    else
      ((ids.filterMap
          (fun i => (getMovieGenreList cache env r).1.find? (fun g => g.id == i))),
        (getMovieGenreList cache env r).2.1,
        (getMovieGenreList cache env r).2.2)

/-! ## The restaurants table (`src/db/restaurantDb.ts`) -/

/-- A row of the `restaurants` table.  The JSON-serialized `cuisines` and
`dietaryOptions` columns round-trip string lists exactly, so they are kept
as lists. -/
structure Restaurant where
  id : Nat
  googlePlaceId : String
  name : String
  address : String
  cuisines : List String
  dietaryOptions : List String
  rating : Rat
deriving DecidableEq, Repr

/-- The argument of `saveRestaurantToDb`: a restaurant record without the
local id (`Omit<Restaurant, 'id'>`). -/
structure RestaurantData where
  googlePlaceId : String
  name : String
  address : String
  cuisines : List String
  dietaryOptions : List String
  rating : Rat
deriving DecidableEq, Repr

/-- The `restaurants` table: rows in insertion order plus the next rowid
(SQLite rowids start at 1). -/
structure RestaurantTable where
  rows : List Restaurant
  nextId : Nat
deriving DecidableEq, Repr

/-- `getRestaurantById` (`src/db/restaurantDb.ts` lines 44-53): the first
row with the given local id. -/
def getRestaurantById (db : RestaurantTable) (i : Nat) : Option Restaurant :=
  db.rows.find? (fun row => row.id == i)

/-- `saveRestaurantToDb` (`src/db/restaurantDb.ts` lines 11-42): if a row
with the same `googlePlaceId` exists, return it without touching the
table; otherwise insert a fresh row and return it via `getRestaurantById`
on the insert's `lastID` (the source's `if (result.lastID)` truthiness
check is the `nextId == 0` test).  The UNIQUE-constraint catch branch is
unreachable in the single-writer model and is not represented. -/
def saveRestaurantToDb (db : RestaurantTable) (d : RestaurantData) :
    Option Restaurant × RestaurantTable :=
  match db.rows.find? (fun row => row.googlePlaceId == d.googlePlaceId) with
  | some existing => (some existing, db)
  | none =>
    ((if db.nextId == 0 then none
      else
        getRestaurantById
          { rows := db.rows ++
              [{ id := db.nextId, googlePlaceId := d.googlePlaceId,
                 name := d.name, address := d.address, cuisines := d.cuisines,
                 dietaryOptions := d.dietaryOptions, rating := d.rating }],
            nextId := db.nextId + 1 } db.nextId),
      { rows := db.rows ++
          [{ id := db.nextId, googlePlaceId := d.googlePlaceId,
             name := d.name, address := d.address, cuisines := d.cuisines,
             dietaryOptions := d.dietaryOptions, rating := d.rating }],
        nextId := db.nextId + 1 })

/-! ## Program startup (`src/index.ts`) -/

/-- Outcomes of the effectful steps `main()` performs
(`src/index.ts` lines 300-318).  None of these steps reads the TMDB
credentials: the only reads of `TMDB_API_READ_ACCESS_TOKEN` /
`TMDB_API_KEY` in the repository are inside `fetchTMDB`, which is only
reached lazily from the interactive menus and never throws (it returns
`null` on every failure), so each step's outcome is independent of the
credential environment. -/
structure StepOutcomes where
  initDB : Except JsThrow Unit
  seedGenericUsers : Except JsThrow Unit
  seedRestaurantPrefs : Except JsThrow Unit
  seedMoviePrefs : Except JsThrow Unit
  seedTvShowPrefs : Except JsThrow Unit
  runMainCLI : Except JsThrow Unit
  closeDB : Except JsThrow Unit
deriving Repr

/-- `main()` (`src/index.ts` lines 300-318): initialize the database, seed
users and the three preference tables, run the interactive CLI, close the
database.  The credential environment is a parameter solely to record that
the startup sequence never consults it. -/
def mainProgram (env : TMDBEnv) (s : StepOutcomes) : Except JsThrow Unit := do
  let _ := env
  s.initDB
  s.seedGenericUsers
  s.seedRestaurantPrefs
  s.seedMoviePrefs
  s.seedTvShowPrefs
  s.runMainCLI
  s.closeDB

/-! ## Concrete values used by witnesses and counterexamples -/

/-- The environment with neither credential configured. -/
def envNoCreds : TMDBEnv := { readAccessToken := none, apiKeyV3 := none }

/-- An environment with the v4 read access token configured. -/
def envWithToken : TMDBEnv := { readAccessToken := some "tok", apiKeyV3 := none }

/-- All startup steps succeed. -/
def allOkSteps : StepOutcomes :=
  { initDB := Except.ok (), seedGenericUsers := Except.ok (),
    seedRestaurantPrefs := Except.ok (), seedMoviePrefs := Except.ok (),
    seedTvShowPrefs := Except.ok (), runMainCLI := Except.ok (),
    closeDB := Except.ok () }

/-- A sample catalog item. -/
def mvA : Movie :=
  { id := 1, tmdb_id := 10, title := "A", release_year := some 2001,
    genres := [{ id := 18, name := "Drama" }], original_language := some "en",
    vote_average := 7, vote_count := 120, runtime := some 101,
    providers := some ["Netflix"] }

/-- A second sample catalog item sharing `mvA`'s remote id. -/
def mvB : Movie :=
  { id := 2, tmdb_id := 10, title := "B", release_year := some 1999,
    genres := [], original_language := none, vote_average := 5,
    vote_count := 3, runtime := none, providers := none }

/-- A third sample catalog item with a distinct remote id. -/
def mvC : Movie :=
  { id := 3, tmdb_id := 30, title := "C", release_year := none,
    genres := [{ id := 35, name := "Comedy" }], original_language := some "fr",
    vote_average := 6, vote_count := 40, runtime := some 95,
    providers := some ["Hulu"] }

/-- The empty preference record (every constraint inactive). -/
def prefsAny : UserMoviePreferences := {}

/-- A sample restaurant payload. -/
def restA : RestaurantData :=
  { googlePlaceId := "gp-1", name := "Trattoria", address := "1 Main St",
    cuisines := ["Italian"], dietaryOptions := ["vegetarian"], rating := 4 }

end Recommender

namespace Recommender

/-! ## Helper lemmas -/

/-- A list of options that are all `none` filter-maps through `id` to the
empty list. -/
theorem filterMap_id_eq_nil {α : Type} (l : List (Option α))
    (h : ∀ o ∈ l, o = none) : l.filterMap id = [] := by
  induction l with
  | nil => rfl
  | cons o t ih =>
    have ho : o = none := h o (List.mem_cons_self o t)
    subst ho
    simpa [List.filterMap_cons] using ih fun x hx => h x (List.mem_cons_of_mem _ hx)

/-- Everything the de-duplicating walk returns comes from its input. -/
theorem mergeDedupAux_subset (l : List Movie) :
    ∀ (seen : List Nat), ∀ x ∈ mergeDedupAux seen l, x ∈ l := by
  induction l with
  | nil =>
    intro seen x hx
    simp [mergeDedupAux] at hx
  | cons m rest ih =>
    intro seen x hx
    rw [mergeDedupAux.eq_def] at hx
    by_cases hs : m.tmdb_id ∈ seen
    · simp only [List.elem_eq_mem, decide_eq_true_eq, hs, if_true] at hx
      exact List.mem_cons_of_mem _ (ih seen x hx)
    · simp only [List.elem_eq_mem, decide_eq_true_eq, hs, if_false, List.mem_cons] at hx
      rcases hx with hx | hx
      · exact hx ▸ List.mem_cons_self _ _
      · exact List.mem_cons_of_mem _ (ih (m.tmdb_id :: seen) x hx)

/-- Nothing the de-duplicating walk returns carries an id that was already
seen when the walk started. -/
theorem mergeDedupAux_not_seen (l : List Movie) :
    ∀ (seen : List Nat), ∀ x ∈ mergeDedupAux seen l, x.tmdb_id ∉ seen := by
  induction l with
  | nil =>
    intro seen x hx
    simp [mergeDedupAux] at hx
  | cons m rest ih =>
    intro seen x hx
    rw [mergeDedupAux.eq_def] at hx
    by_cases hs : m.tmdb_id ∈ seen
    · simp only [List.elem_eq_mem, decide_eq_true_eq, hs, if_true] at hx
      exact ih seen x hx
    · simp only [List.elem_eq_mem, decide_eq_true_eq, hs, if_false, List.mem_cons] at hx
      rcases hx with hx | hx
      · exact hx ▸ hs
      · intro hmem
        exact ih (m.tmdb_id :: seen) x hx (List.mem_cons_of_mem _ hmem)

/-- The de-duplicated pool has pairwise distinct remote ids. -/
theorem mergeDedupAux_nodup (l : List Movie) :
    ∀ (seen : List Nat),
      ((mergeDedupAux seen l).map (fun m => m.tmdb_id)).Nodup := by
  induction l with
  | nil =>
    intro seen
    simp [mergeDedupAux]
  | cons m rest ih =>
    intro seen
    rw [mergeDedupAux.eq_def]
    by_cases hs : m.tmdb_id ∈ seen
    · simp only [List.elem_eq_mem, decide_eq_true_eq, hs, if_true]
      exact ih seen
    · simp only [List.elem_eq_mem, decide_eq_true_eq, hs, if_false, List.map_cons,
        List.nodup_cons]
      refine ⟨?_, ih (m.tmdb_id :: seen)⟩
      intro hmem
      rcases List.mem_map.mp hmem with ⟨y, hy, hid⟩
      exact mergeDedupAux_not_seen rest (m.tmdb_id :: seen) y hy
        (hid ▸ List.mem_cons_self _ _)

/-- First-seen wins: the item kept for a remote id is the first element of
the input carrying that id. -/
theorem mergeDedupAux_first_seen (l : List Movie) :
    ∀ (seen : List Nat), ∀ x ∈ mergeDedupAux seen l,
      l.find? (fun y => y.tmdb_id == x.tmdb_id) = some x := by
  induction l with
  | nil =>
    intro seen x hx
    simp [mergeDedupAux] at hx
  | cons m rest ih =>
    intro seen x hx
    rw [mergeDedupAux.eq_def] at hx
    by_cases hs : m.tmdb_id ∈ seen
    · simp only [List.elem_eq_mem, decide_eq_true_eq, hs, if_true] at hx
      have hxseen := mergeDedupAux_not_seen rest seen x hx
      have hne : m.tmdb_id ≠ x.tmdb_id := fun hEq => hxseen (hEq ▸ hs)
      have hm : (m.tmdb_id == x.tmdb_id) = false := by simpa using hne
      simp [List.find?_cons, hm, ih seen x hx]
    · simp only [List.elem_eq_mem, decide_eq_true_eq, hs, if_false, List.mem_cons] at hx
      rcases hx with hx | hx
      · subst hx
        simp [List.find?_cons]
      · have hxseen := mergeDedupAux_not_seen rest (m.tmdb_id :: seen) x hx
        have hne : m.tmdb_id ≠ x.tmdb_id := fun hEq =>
          hxseen (hEq ▸ List.mem_cons_self _ _)
        have hm : (m.tmdb_id == x.tmdb_id) = false := by simpa using hne
        simp [List.find?_cons, hm, ih (m.tmdb_id :: seen) x hx]

/-- Every input remote id that was not already seen survives into the
de-duplicated pool. -/
theorem mergeDedupAux_complete (l : List Movie) :
    ∀ (seen : List Nat), ∀ x ∈ l, x.tmdb_id ∉ seen →
      ∃ m ∈ mergeDedupAux seen l, m.tmdb_id = x.tmdb_id := by
  induction l with
  | nil =>
    intro seen x hx
    simp at hx
  | cons m rest ih =>
    intro seen x hx hxs
    rw [mergeDedupAux.eq_def]
    by_cases hs : m.tmdb_id ∈ seen
    · simp only [List.elem_eq_mem, decide_eq_true_eq, hs, if_true]
      rcases List.mem_cons.mp hx with hxm | hxr
      · exact absurd (hxm ▸ hs) hxs
      · exact ih seen x hxr hxs
    · simp only [List.elem_eq_mem, decide_eq_true_eq, hs, if_false]
      rcases List.mem_cons.mp hx with hxm | hxr
      · exact ⟨m, List.mem_cons_self _ _, by rw [hxm]⟩
      · by_cases hid : x.tmdb_id = m.tmdb_id
        · exact ⟨m, List.mem_cons_self _ _, hid.symm⟩
        · have hxs2 : x.tmdb_id ∉ m.tmdb_id :: seen := by
            intro hmem
            rcases List.mem_cons.mp hmem with h | h
            · exact hid h
            · exact hxs h
          rcases ih (m.tmdb_id :: seen) x hxr hxs2 with ⟨a, ha, haid⟩
          exact ⟨a, List.mem_cons_of_mem _ ha, haid⟩

/-- `mergeDedup` restated through its walker: input containment. -/
theorem mergeDedup_subset (l : List Movie) : ∀ x ∈ mergeDedup l, x ∈ l :=
  mergeDedupAux_subset l []

/-- `mergeDedup` produces pairwise distinct remote ids. -/
theorem mergeDedup_nodup (l : List Movie) :
    ((mergeDedup l).map (fun m => m.tmdb_id)).Nodup :=
  mergeDedupAux_nodup l []

/-- `mergeDedup` keeps, for each remote id, the first item carrying it. -/
theorem mergeDedup_first_seen (l : List Movie) :
    ∀ x ∈ mergeDedup l, l.find? (fun y => y.tmdb_id == x.tmdb_id) = some x :=
  mergeDedupAux_first_seen l []

/-- `mergeDedup` loses no remote id. -/
theorem mergeDedup_complete (l : List Movie) :
    ∀ x ∈ l, ∃ m ∈ mergeDedup l, m.tmdb_id = x.tmdb_id := by
  intro x hx
  exact mergeDedupAux_complete l [] x hx (by simp)

/-- The session-persistent exclusion set only grows during a presentation
loop. -/
theorem runPresent_excl_mono (queue : List Movie) :
    ∀ (excl shown : List Nat) (inputs : List Interaction) (x : Nat),
      x ∈ excl → x ∈ (runPresent queue excl shown inputs).2 := by
  induction queue with
  | nil =>
    intro excl shown inputs x hx
    simpa [runPresent] using hx
  | cons m q ih =>
    intro excl shown inputs x hx
    rw [runPresent.eq_def]
    cases hd : displayable excl shown m with
    | false => simpa [hd] using ih excl shown inputs x hx
    | true =>
      cases inputs with
      | nil => simpa [hd] using hx
      | cons i rest =>
        cases i with
        | quit => simpa [hd] using hx
        | liked =>
          simpa [hd, addsExclusion] using
            ih (m.tmdb_id :: excl) (m.tmdb_id :: shown) rest x
              (List.mem_cons_of_mem _ hx)
        | disliked =>
          simpa [hd, addsExclusion] using
            ih (m.tmdb_id :: excl) (m.tmdb_id :: shown) rest x
              (List.mem_cons_of_mem _ hx)
        | skipped =>
          simpa [hd, addsExclusion] using
            ih excl (m.tmdb_id :: shown) rest x hx

/-- Every movie displayed by a presentation loop was, at entry, neither in
the persistent exclusion set nor among the already-shown ids. -/
theorem runPresent_displayed_props (queue : List Movie) :
    ∀ (excl shown : List Nat) (inputs : List Interaction) (m : Movie),
      m ∈ (runPresent queue excl shown inputs).1 →
        m.tmdb_id ∉ excl ∧ m.tmdb_id ∉ shown := by
  induction queue with
  | nil =>
    intro excl shown inputs m hm
    simp [runPresent] at hm
  | cons a q ih =>
    intro excl shown inputs m hm
    rw [runPresent.eq_def] at hm
    cases hd : displayable excl shown a with
    | false =>
      simp only [hd, Bool.false_eq_true, if_false] at hm
      exact ih excl shown inputs m hm
    | true =>
      have hda : a.tmdb_id ∉ excl ∧ a.tmdb_id ∉ shown := by
        constructor
        · intro hx
          simp [displayable, hx] at hd
        · intro hx
          simp [displayable, hx] at hd
      simp only [hd, if_true] at hm
      cases inputs with
      | nil => simp at hm
      | cons i rest =>
        cases i with
        | quit =>
          simp only [List.mem_singleton] at hm
          subst hm
          exact hda
        | liked =>
          simp only [addsExclusion, if_true, List.mem_cons] at hm
          rcases hm with hm | hm
          · subst hm; exact hda
          · have h2 := ih (a.tmdb_id :: excl) (a.tmdb_id :: shown) rest m hm
            exact ⟨fun hx => h2.1 (List.mem_cons_of_mem _ hx),
              fun hx => h2.2 (List.mem_cons_of_mem _ hx)⟩
        | disliked =>
          simp only [addsExclusion, if_true, List.mem_cons] at hm
          rcases hm with hm | hm
          · subst hm; exact hda
          · have h2 := ih (a.tmdb_id :: excl) (a.tmdb_id :: shown) rest m hm
            exact ⟨fun hx => h2.1 (List.mem_cons_of_mem _ hx),
              fun hx => h2.2 (List.mem_cons_of_mem _ hx)⟩
        | skipped =>
          simp only [addsExclusion, Bool.false_eq_true, if_false,
            List.mem_cons] at hm
          rcases hm with hm | hm
          · subst hm; exact hda
          · have h2 := ih excl (a.tmdb_id :: shown) rest m hm
            exact ⟨h2.1, fun hx => h2.2 (List.mem_cons_of_mem _ hx)⟩

/-- The movies displayed by one presentation loop have pairwise distinct
remote ids: within a loop no `tmdb_id` is ever presented twice. -/
theorem runPresent_displayed_nodup (queue : List Movie) :
    ∀ (excl shown : List Nat) (inputs : List Interaction),
      ((runPresent queue excl shown inputs).1.map (fun m => m.tmdb_id)).Nodup := by
  induction queue with
  | nil =>
    intro excl shown inputs
    simp [runPresent]
  | cons a q ih =>
    intro excl shown inputs
    rw [runPresent.eq_def]
    cases hd : displayable excl shown a with
    | false => simpa [hd] using ih excl shown inputs
    | true =>
      cases inputs with
      | nil => simp [hd]
      | cons i rest =>
        have tailStep : ∀ (excl2 : List Nat),
            ((a :: (runPresent q excl2 (a.tmdb_id :: shown) rest).1).map
              (fun m => m.tmdb_id)).Nodup := by
          intro excl2
          simp only [List.map_cons, List.nodup_cons]
          constructor
          · intro hmem
            rcases List.mem_map.mp hmem with ⟨y, hy, hid⟩
            have := (runPresent_displayed_props q excl2 (a.tmdb_id :: shown)
              rest y hy).2
            exact this (hid ▸ List.mem_cons_self _ _)
          · exact ih excl2 (a.tmdb_id :: shown) rest
        cases i with
        | quit => simp [hd]
        | liked => simpa [hd, addsExclusion] using tailStep (a.tmdb_id :: excl)
        | disliked => simpa [hd, addsExclusion] using tailStep (a.tmdb_id :: excl)
        | skipped => simpa [hd, addsExclusion] using tailStep excl

/-- One session event can only grow the exclusion set. -/
theorem sessionEventRun_excl_mono (excl : List Nat) (e : SessionEvent) :
    ∀ x ∈ excl, x ∈ (sessionEventRun excl e).2 := by
  intro x hx
  cases e with
  | presentBatch recs inputs => exact runPresent_excl_mono recs excl [] inputs x hx
  | rateMovie m r =>
    simp only [sessionEventRun]
    split
    · exact List.mem_cons_of_mem _ hx
    · exact hx
  | viewDetails m i =>
    simp only [sessionEventRun]
    split
    · exact List.mem_cons_of_mem _ hx
    · exact hx

/-- A whole session only grows the exclusion set. -/
theorem sessionRun_excl_mono (events : List SessionEvent) :
    ∀ (excl : List Nat), ∀ x ∈ excl, x ∈ (sessionRun excl events).2 := by
  induction events with
  | nil =>
    intro excl x hx
    simpa [sessionRun] using hx
  | cons e es ih =>
    intro excl x hx
    rw [sessionRun]
    exact ih _ x (sessionEventRun_excl_mono excl e x hx)

/-- No session event displays a movie whose remote id is already in the
exclusion set when the event starts. -/
theorem sessionEventRun_displayed (excl : List Nat) (e : SessionEvent) :
    ∀ m ∈ (sessionEventRun excl e).1, m.tmdb_id ∉ excl := by
  intro m hm
  cases e with
  | presentBatch recs inputs =>
    exact (runPresent_displayed_props recs excl [] inputs m hm).1
  | rateMovie a r => simp [sessionEventRun] at hm
  | viewDetails a i => simp [sessionEventRun] at hm

/-- No movie displayed anywhere in a session carries a remote id that was
already in the exclusion set when the session segment started. -/
theorem sessionRun_displayed (events : List SessionEvent) :
    ∀ (excl : List Nat), ∀ m ∈ (sessionRun excl events).1, m.tmdb_id ∉ excl := by
  induction events with
  | nil =>
    intro excl m hm
    simp [sessionRun] at hm
  | cons e es ih =>
    intro excl m hm
    rw [sessionRun] at hm
    rcases List.mem_append.mp hm with h | h
    · exact sessionEventRun_displayed excl e m h
    · intro hx
      exact ih _ m h (sessionEventRun_excl_mono excl e _ hx)

end Recommender

namespace Recommender

/-- **C1.** For every preference record and supplied exclusion set, every
item in the sequence returned by the recommendation operation
(`getMovieRecommendationsForUser`, modelled from spec section 4.4)
satisfies the preference predicate, and the item's remote (TMDB) id is not
a member of the supplied exclusion set. -/
theorem recommendations_satisfy_prefs_and_exclusions
    (fetches : List (Option (List Movie))) (prefs : UserMoviePreferences)
    (excludeTmdbIds : List Nat) :
    ∀ m ∈ getMovieRecommendationsForUser fetches prefs excludeTmdbIds,
      matchesPrefs m prefs = true ∧ m.tmdb_id ∉ excludeTmdbIds := by
  intro m hm
  unfold getMovieRecommendationsForUser at hm
  have h1 := List.mem_filter.mp hm
  have h2 := List.mem_filter.mp h1.1
  refine ⟨h2.2, ?_⟩
  simpa using h1.2

/-- Witness for C1 at a concrete pool: `mvA` is returned and indeed
matches the (empty) preferences while avoiding the exclusion set. -/
theorem recommendations_satisfy_prefs_and_exclusions_witness :
    matchesPrefs mvA prefsAny = true ∧ mvA.tmdb_id ∉ ([30] : List Nat) :=
  recommendations_satisfy_prefs_and_exclusions [some [mvA, mvC], none]
    prefsAny [30] mvA (by decide)

/-- **C3.** In a single aggregation no remote (TMDB) id appears twice in
the candidate pool delivered by the recommender, regardless of how many
seeds produced it; the merge de-duplicates by remote id with the
first-seen item winning, and no remote id of the fetched input is lost. -/
theorem aggregation_dedup_by_remote_id (fetches : List (Option (List Movie))) :
    ((aggregate fetches).map (fun m => m.tmdb_id)).Nodup ∧
    (∀ m ∈ aggregate fetches,
      ((fetches.filterMap id).flatten).find?
        (fun y => y.tmdb_id == m.tmdb_id) = some m) ∧
    (∀ x ∈ (fetches.filterMap id).flatten,
      ∃ m ∈ aggregate fetches, m.tmdb_id = x.tmdb_id) :=
  ⟨mergeDedup_nodup _, mergeDedup_first_seen _, mergeDedup_complete _⟩

/-- Witness for C3: with two pools sharing remote id 10, the kept item for
id 10 is the first-fetched `mvA`, and the duplicated id still appears. -/
theorem aggregation_dedup_by_remote_id_witness :
    ((([some [mvA], some [mvB, mvC]] :
        List (Option (List Movie))).filterMap id).flatten).find?
      (fun y => y.tmdb_id == mvA.tmdb_id) = some mvA ∧
    ∃ m ∈ aggregate [some [mvA], some [mvB, mvC]], m.tmdb_id = mvB.tmdb_id :=
  ⟨(aggregation_dedup_by_remote_id [some [mvA], some [mvB, mvC]]).2.1 mvA
      (by decide),
    (aggregation_dedup_by_remote_id [some [mvA], some [mvB, mvC]]).2.2 mvB
      (by decide)⟩

/-- **C5.** When the recommendation operation yields an empty sequence —
including the case where every remote request failed — the caller-facing
outcome is the "no recommendations available" report and a normal return
(a `PresentOutcome` value, never a throw); the caller-facing contract for
an empty result and for a total remote outage is identical. -/
theorem empty_and_outage_report_identically :
    (∀ (excl : List Nat) (inputs : List Interaction),
      presentMovieRecommendationsOneByOne [] excl inputs =
        PresentOutcome.noRecommendationsReport) ∧
    (∀ (fetches : List (Option (List Movie))) (prefs : UserMoviePreferences)
        (excl : List Nat), (∀ o ∈ fetches, o = none) →
      getMovieRecommendationsForUser fetches prefs excl = [] ∧
      ∀ inputs, presentMovieRecommendationsOneByOne
          (getMovieRecommendationsForUser fetches prefs excl) excl inputs =
            PresentOutcome.noRecommendationsReport) := by
  constructor
  · intro excl inputs
    simp [presentMovieRecommendationsOneByOne]
  · intro fetches prefs excl h
    have hrec : getMovieRecommendationsForUser fetches prefs excl = [] := by
      unfold getMovieRecommendationsForUser aggregate mergeDedup
      rw [filterMap_id_eq_nil fetches h]
      simp [mergeDedupAux]
    refine ⟨hrec, ?_⟩
    intro inputs
    rw [hrec]
    simp [presentMovieRecommendationsOneByOne]

/-- Witness for C5 at a total outage of two fetches: the engine returns
the empty sequence and the presenter reports "no recommendations". -/
theorem empty_and_outage_report_identically_witness :
    getMovieRecommendationsForUser [none, none] prefsAny [] = [] ∧
    presentMovieRecommendationsOneByOne
        (getMovieRecommendationsForUser [none, none] prefsAny []) [] [] =
      PresentOutcome.noRecommendationsReport :=
  ⟨(empty_and_outage_report_identically.2 [none, none] prefsAny []
      (by decide)).1,
    (empty_and_outage_report_identically.2 [none, none] prefsAny []
      (by decide)).2 []⟩

/-- **C10.** In the one-by-one presentation loop, choosing [N]ext (skip)
for a displayed item threads the persistent exclusion set unchanged into
the rest of the loop — only a like or dislike (directly or after viewing
details, i.e. an interaction with `addsExclusion`) adds the item's
`tmdb_id` — and a merely-skipped item whose id is outside the exclusion
set can be returned again by a later recommendation fetch of the same
session. -/
theorem skip_does_not_exclude :
    (∀ (m : Movie) (queue : List Movie) (excl shown : List Nat)
        (rest : List Interaction), displayable excl shown m = true →
      runPresent (m :: queue) excl shown (Interaction.skipped :: rest) =
        (m :: (runPresent queue excl (m.tmdb_id :: shown) rest).1,
          (runPresent queue excl (m.tmdb_id :: shown) rest).2)) ∧
    (∀ (m : Movie) (queue : List Movie) (excl shown : List Nat)
        (rest : List Interaction) (i : Interaction),
      displayable excl shown m = true → addsExclusion i = true →
      m.tmdb_id ∈ (runPresent (m :: queue) excl shown (i :: rest)).2) ∧
    (∀ (m : Movie) (prefs : UserMoviePreferences) (excl : List Nat),
      matchesPrefs m prefs = true → m.tmdb_id ∉ excl →
      m ∈ getMovieRecommendationsForUser [some [m]] prefs excl) := by
  refine ⟨?_, ?_, ?_⟩
  · intro m queue excl shown rest hd
    rw [runPresent.eq_def]
    simp [hd, addsExclusion]
  · intro m queue excl shown rest i hd hi
    cases i with
    | skipped => simp [addsExclusion] at hi
    | quit => simp [addsExclusion] at hi
    | liked =>
      rw [runPresent.eq_def]
      simp only [hd, if_true, addsExclusion]
      exact runPresent_excl_mono queue (m.tmdb_id :: excl) (m.tmdb_id :: shown)
        rest m.tmdb_id (List.mem_cons_self _ _)
    | disliked =>
      rw [runPresent.eq_def]
      simp only [hd, if_true, addsExclusion]
      exact runPresent_excl_mono queue (m.tmdb_id :: excl) (m.tmdb_id :: shown)
        rest m.tmdb_id (List.mem_cons_self _ _)
  · intro m prefs excl h1 h2
    simp [getMovieRecommendationsForUser, aggregate, mergeDedup,
      mergeDedupAux, h1, h2]

/-- Witness for C10: skipping `mvA` leaves the exclusion set `[99]`
untouched, and `mvA` can then still be delivered by a later fetch. -/
theorem skip_does_not_exclude_witness :
    runPresent [mvA] [99] [] [Interaction.skipped] =
      ([mvA], [99]) ∧
    mvA ∈ getMovieRecommendationsForUser [some [mvA]] prefsAny [99] :=
  ⟨by
    rw [(skip_does_not_exclude).1 mvA [] [99] [] [] (by decide)]
    decide,
    (skip_does_not_exclude).2.2 mvA prefsAny [99] (by decide) (by decide)⟩

/-- **C2.** Within one movie-CLI session the exclusion set is seeded at
session start from the remote ids of all items the user has ever rated
(those whose local id resolves in the movie table); it only grows — an id
is added whenever the user rates (menu option 2), likes or dislikes (in
the loop or on the details screen) an item — and never shrinks; and an id
present in the set is never again presented as a recommendation later in
that session.  The seed is a pure function of the persisted ratings, so a
new session recomputes it fresh. -/
theorem session_exclusion_lifecycle :
    (∀ (ratedIds : List Nat) (lookup : Nat → Option Movie) (x : Nat),
      x ∈ seedExclusions ratedIds lookup ↔
        ∃ rid ∈ ratedIds, ∃ mv, lookup rid = some mv ∧ mv.tmdb_id = x) ∧
    (∀ (excl : List Nat) (events : List SessionEvent),
      ∀ x ∈ excl, x ∈ (sessionRun excl events).2) ∧
    (∀ (excl : List Nat) (es₁ es₂ : List SessionEvent) (x : Nat) (m : Movie),
      x ∈ (sessionRun excl es₁).2 →
      m ∈ (sessionRun (sessionRun excl es₁).2 es₂).1 → m.tmdb_id ≠ x) ∧
    (∀ (excl : List Nat) (events : List SessionEvent),
      ∀ m ∈ (sessionRun excl events).1, m.tmdb_id ∉ excl) ∧
    (∀ (recs : List Movie) (excl shown : List Nat)
        (inputs : List Interaction),
      ((runPresent recs excl shown inputs).1.map (fun m => m.tmdb_id)).Nodup) ∧
    (∀ (excl : List Nat) (m : Movie) (r : Nat), 1 ≤ r → r ≤ 5 →
      m.tmdb_id ∈ (sessionEventRun excl (SessionEvent.rateMovie m r)).2) ∧
    (∀ (excl : List Nat) (m : Movie) (i : Interaction),
      addsExclusion i = true →
      m.tmdb_id ∈ (sessionEventRun excl (SessionEvent.viewDetails m i)).2) := by
  refine ⟨?_, ?_, ?_, ?_, ?_, ?_, ?_⟩
  · intro ratedIds lookup x
    constructor
    · intro hx
      rcases List.mem_map.mp hx with ⟨mv, hmv, hid⟩
      rcases List.mem_filterMap.mp hmv with ⟨rid, hrid, hlk⟩
      exact ⟨rid, hrid, mv, hlk, hid⟩
    · rintro ⟨rid, hrid, mv, hlk, hid⟩
      exact List.mem_map.mpr ⟨mv, List.mem_filterMap.mpr ⟨rid, hrid, hlk⟩, hid⟩
  · intro excl events x hx
    exact sessionRun_excl_mono events excl x hx
  · intro excl es₁ es₂ x m hx hm hEq
    exact sessionRun_displayed es₂ _ m hm (hEq ▸ hx)
  · intro excl events m hm
    exact sessionRun_displayed events excl m hm
  · intro recs excl shown inputs
    exact runPresent_displayed_nodup recs excl shown inputs
  · intro excl m r h1 h2
    simp only [sessionEventRun]
    rw [if_pos ⟨h1, h2⟩]
    exact List.mem_cons_self _ _
  · intro excl m i hi
    simp only [sessionEventRun]
    rw [if_pos hi]
    exact List.mem_cons_self _ _

/-- Witness for C2 at concrete data: the seed contains the rated item's
remote id, a rating event grows the set, and a like on the details screen
grows the set. -/
theorem session_exclusion_lifecycle_witness :
    (10 : Nat) ∈ seedExclusions [1]
        (fun i => if i = 1 then some mvA else none) ∧
    (99 : Nat) ∈ (sessionRun [99] [SessionEvent.rateMovie mvA 5]).2 ∧
    mvA.tmdb_id ∈
      (sessionEventRun [] (SessionEvent.viewDetails mvA Interaction.liked)).2 :=
  ⟨(session_exclusion_lifecycle.1 [1]
      (fun i => if i = 1 then some mvA else none) 10).mpr
      ⟨1, by decide, mvA, rfl, rfl⟩,
    session_exclusion_lifecycle.2.1 [99] [SessionEvent.rateMovie mvA 5] 99
      (by decide),
    session_exclusion_lifecycle.2.2.2.2.2.2 [] mvA Interaction.liked rfl⟩

end Recommender

namespace Recommender

/-! ## Fetch-failure helper lemmas -/

/-- Without credentials `fetchTMDB` returns `null` for every request. -/
theorem fetchTMDB_no_creds {β : Type} (env : TMDBEnv)
    (h : hasCredentials env = false) (ep : String) (r : HttpResult β)
    (ev : β) : fetchTMDB env ep r ev = none := by
  simp [fetchTMDB, h]

/-- Every throw inside the `try` block is absorbed by the `catch` into a
`null` return. -/
theorem fetchTMDB_catch_absorbs {β : Type} (env : TMDBEnv) (ep : String)
    (r : HttpResult β) (ev : β) (e : JsThrow)
    (h : tryBlock r ev = Except.error e) : fetchTMDB env ep r ev = none := by
  cases hc : hasCredentials env with
  | false => simp [fetchTMDB, hc]
  | true => simp [fetchTMDB, hc, h]

/-- A transport failure yields `null`. -/
theorem fetchTMDB_transport {β : Type} (env : TMDBEnv) (ep : String)
    (ev : β) : fetchTMDB env ep HttpResult.transportError ev = none :=
  fetchTMDB_catch_absorbs env ep _ ev JsThrow.networkError rfl

/-- A non-2xx status yields `null`. -/
theorem fetchTMDB_not_ok {β : Type} (env : TMDBEnv) (ep : String) (s : Nat)
    (b : Except String β) (ev : β) (h : ¬(200 ≤ s ∧ s < 300)) :
    fetchTMDB env ep (HttpResult.response s b) ev = none := by
  cases hc : hasCredentials env with
  | false => simp [fetchTMDB, hc]
  | true => simp [fetchTMDB, hc, tryBlock, h]

/-- An unparsable body (other than on a bodyless 204) yields `null`. -/
theorem fetchTMDB_parse_error {β : Type} (env : TMDBEnv) (ep : String)
    (s : Nat) (msg : String) (ev : β) (h : s ≠ 204) :
    fetchTMDB env ep (HttpResult.response s (Except.error msg)) ev = none := by
  cases hc : hasCredentials env with
  | false => simp [fetchTMDB, hc]
  | true =>
    by_cases hok : 200 ≤ s ∧ s < 300
    · simp [fetchTMDB, hc, tryBlock, hok, h]
    · simp [fetchTMDB, hc, tryBlock, hok]

/-- **C4.** Every remote-fetch operation (`fetchTMDB` and its wrappers
`getMovieDetails`, `getPopularMovies`, `getMovieRecommendations`) never
raises to its caller: every throw of the underlying request (transport
error, unparsable body) is absorbed by the surrounding catch, and every
failure mode — missing credentials, transport error, non-2xx status,
unparsable 2xx body — is signalled by returning `null`. -/
theorem fetch_failures_return_null :
    (∀ (β : Type) (env : TMDBEnv) (ep : String) (r : HttpResult β) (ev : β)
        (e : JsThrow), tryBlock r ev = Except.error e →
      fetchTMDB env ep r ev = none) ∧
    (∀ (β : Type) (env : TMDBEnv) (ep : String) (r : HttpResult β) (ev : β),
      hasCredentials env = false → fetchTMDB env ep r ev = none) ∧
    (∀ (β : Type) (env : TMDBEnv) (ep : String) (ev : β),
      fetchTMDB env ep HttpResult.transportError ev = none) ∧
    (∀ (β : Type) (env : TMDBEnv) (ep : String) (s : Nat)
        (b : Except String β) (ev : β), ¬(200 ≤ s ∧ s < 300) →
      fetchTMDB env ep (HttpResult.response s b) ev = none) ∧
    (∀ (β : Type) (env : TMDBEnv) (ep : String) (s : Nat) (msg : String)
        (ev : β), s ≠ 204 →
      fetchTMDB env ep (HttpResult.response s (Except.error msg)) ev = none) ∧
    (∀ (env : TMDBEnv) (movieId : Nat),
      getMovieDetails env movieId HttpResult.transportError = none) ∧
    (∀ (env : TMDBEnv) (movieId s : Nat) (b : Except String Movie),
      ¬(200 ≤ s ∧ s < 300) →
      getMovieDetails env movieId (HttpResult.response s b) = none) ∧
    (∀ (env : TMDBEnv) (page : Nat),
      getPopularMovies env page HttpResult.transportError = none) ∧
    (∀ (env : TMDBEnv) (page s : Nat)
        (b : Except String (TMDBPaginatedResponse Movie)),
      ¬(200 ≤ s ∧ s < 300) →
      getPopularMovies env page (HttpResult.response s b) = none) ∧
    (∀ (env : TMDBEnv) (movieId page : Nat),
      getMovieRecommendations env movieId page HttpResult.transportError
        = none) ∧
    (∀ (env : TMDBEnv) (movieId page s : Nat)
        (b : Except String (TMDBPaginatedResponse Movie)),
      ¬(200 ≤ s ∧ s < 300) →
      getMovieRecommendations env movieId page (HttpResult.response s b)
        = none) := by
  refine ⟨?_, ?_, ?_, ?_, ?_, ?_, ?_, ?_, ?_, ?_, ?_⟩
  · intro β env ep r ev e h
    exact fetchTMDB_catch_absorbs env ep r ev e h
  · intro β env ep r ev h
    exact fetchTMDB_no_creds env h ep r ev
  · intro β env ep ev
    exact fetchTMDB_transport env ep ev
  · intro β env ep s b ev h
    exact fetchTMDB_not_ok env ep s b ev h
  · intro β env ep s msg ev h
    exact fetchTMDB_parse_error env ep s msg ev h
  · intro env movieId
    exact fetchTMDB_transport env ("movie/" ++ toString movieId) defaultMovie
  · intro env movieId s b h
    exact fetchTMDB_not_ok env ("movie/" ++ toString movieId) s b defaultMovie h
  · intro env page
    exact fetchTMDB_transport env "movie/popular" emptyPage
  · intro env page s b h
    exact fetchTMDB_not_ok env "movie/popular" s b emptyPage h
  · intro env movieId page
    exact fetchTMDB_transport env
      ("movie/" ++ toString movieId ++ "/recommendations") emptyPage
  · intro env movieId page s b h
    exact fetchTMDB_not_ok env
      ("movie/" ++ toString movieId ++ "/recommendations") s b emptyPage h

/-- Witness for C4 at concrete failures: a 500 response, a missing-token
environment, and a 404 on the details wrapper all return `null`. -/
theorem fetch_failures_return_null_witness :
    fetchTMDB envWithToken "movie/popular"
        (HttpResult.response 500 (Except.ok emptyPage)) emptyPage = none ∧
    fetchTMDB envNoCreds "movie/popular"
        (HttpResult.response 200 (Except.ok emptyPage)) emptyPage = none ∧
    getMovieDetails envWithToken 5
        (HttpResult.response 404 (Except.error "not found")) = none :=
  ⟨fetch_failures_return_null.2.2.2.1 (TMDBPaginatedResponse Movie)
      envWithToken "movie/popular" 500 (Except.ok emptyPage) emptyPage
      (by decide),
    fetch_failures_return_null.2.1 (TMDBPaginatedResponse Movie) envNoCreds
      "movie/popular" (HttpResult.response 200 (Except.ok emptyPage))
      emptyPage rfl,
    fetch_failures_return_null.2.2.2.2.2.2.1 envWithToken 5 404
      (Except.error "not found") (by decide)⟩

/-- **C6 counterexample.** With neither `TMDB_API_READ_ACCESS_TOKEN` nor
`TMDB_API_KEY` configured, the program's startup sequence still completes
normally, and a later fetch merely returns `null`: configuration absence
is not a startup-time fatal condition in the code. -/
theorem missing_credentials_not_fatal_counterexample :
    mainProgram envNoCreds allOkSteps = Except.ok () ∧
    hasCredentials envNoCreds = false ∧
    fetchTMDB envNoCreds "movie/popular"
      (HttpResult.response 200 (Except.ok emptyPage)) emptyPage = none :=
  ⟨rfl, rfl, rfl⟩

/-- **C6 (amended).** If no remote-source credentials are configured, the
program still starts — `main()`'s startup sequence never consults the
credentials, so its behaviour is identical with and without them — and the
condition is instead handled at each fetch: every call of `fetchTMDB`
under the credential-less environment returns `null`. -/
theorem missing_credentials_handled_per_fetch :
    (∀ (env : TMDBEnv) (s : StepOutcomes),
      mainProgram env s = mainProgram envNoCreds s) ∧
    (∀ (β : Type) (ep : String) (r : HttpResult β) (ev : β),
      fetchTMDB envNoCreds ep r ev = none) ∧
    mainProgram envNoCreds allOkSteps = Except.ok () :=
  ⟨fun _ _ => rfl, fun _ ep r ev => fetchTMDB_no_creds envNoCreds rfl ep r ev,
    rfl⟩

/-- **C7.** `saveRestaurantToDb` is idempotent with respect to the remote
key: after one call, a repeated call with the same `googlePlaceId` inserts
nothing (the table state is unchanged) and returns the already-stored
record. -/
theorem saveRestaurantToDb_idempotent (db : RestaurantTable)
    (d : RestaurantData) :
    (saveRestaurantToDb (saveRestaurantToDb db d).2 d).2 =
      (saveRestaurantToDb db d).2 ∧
    ∃ row ∈ (saveRestaurantToDb db d).2.rows,
      row.googlePlaceId = d.googlePlaceId ∧
      (saveRestaurantToDb (saveRestaurantToDb db d).2 d).1 = some row := by
  cases hf : db.rows.find? (fun row => row.googlePlaceId == d.googlePlaceId) with
  | some ex =>
    have hstate : (saveRestaurantToDb db d).2 = db := by
      simp [saveRestaurantToDb, hf]
    have hmem : ex ∈ db.rows := List.mem_of_find?_eq_some hf
    have hgp : ex.googlePlaceId = d.googlePlaceId := by
      simpa using List.find?_some hf
    rw [hstate]
    refine ⟨by simp [saveRestaurantToDb, hf], ex, hmem, hgp, ?_⟩
    simp [saveRestaurantToDb, hf]
  | none =>
    have hstate : (saveRestaurantToDb db d).2 =
        { rows := db.rows ++
            [{ id := db.nextId, googlePlaceId := d.googlePlaceId,
               name := d.name, address := d.address, cuisines := d.cuisines,
               dietaryOptions := d.dietaryOptions, rating := d.rating }],
          nextId := db.nextId + 1 } := by
      simp [saveRestaurantToDb, hf]
    have hf2 : (saveRestaurantToDb db d).2.rows.find?
        (fun row => row.googlePlaceId == d.googlePlaceId) =
        some { id := db.nextId, googlePlaceId := d.googlePlaceId,
               name := d.name, address := d.address, cuisines := d.cuisines,
               dietaryOptions := d.dietaryOptions, rating := d.rating } := by
      rw [hstate]
      simp only [List.find?_append, hf, Option.none_or]
      simp [List.find?_cons]
    refine ⟨?_,
      { id := db.nextId, googlePlaceId := d.googlePlaceId, name := d.name,
        address := d.address, cuisines := d.cuisines,
        dietaryOptions := d.dietaryOptions, rating := d.rating },
      ?_, rfl, ?_⟩
    · generalize hdb1 : (saveRestaurantToDb db d).2 = db1 at hf2 ⊢
      simp [saveRestaurantToDb, hf2]
    · rw [hstate]
      exact List.mem_append_right _ (List.mem_cons_self _ _)
    · generalize hdb1 : (saveRestaurantToDb db d).2 = db1 at hf2 ⊢
      simp [saveRestaurantToDb, hf2]

end Recommender

namespace Recommender

/-- The ids of the looked-up genres are exactly the requested ids that
resolve against the full list, in request order. -/
theorem lookup_ids_exact (ids : List Nat) (full : List Genre) :
    ((ids.filterMap (fun i => full.find? (fun g => g.id == i))).map
        (fun g => g.id)) =
      ids.filter (fun i => full.any (fun g => g.id == i)) := by
  induction ids with
  | nil => rfl
  | cons i tl ih =>
    cases hf : full.find? (fun g => g.id == i) with
    | none =>
      have hany : full.any (fun g => g.id == i) = false := by
        rw [List.any_eq_false]
        intro x hx
        simpa using List.find?_eq_none.mp hf x hx
      simp [List.filterMap_cons, hf, List.filter_cons, hany, ih]
    | some g =>
      have hid : g.id = i := by simpa using List.find?_some hf
      have hany : full.any (fun g2 => g2.id == i) = true :=
        List.any_eq_true.mpr ⟨g, List.mem_of_find?_eq_some hf, by simpa using hid⟩
      simp [List.filterMap_cons, hf, List.filter_cons, hany, ih, hid]

/-- **C8.** The genre-name lookup is fetched at most once per item kind
per process: with a populated cache, `getMovieGenreList` (and
`getTvShowGenreList`) return the cached list without contacting the remote
source again (the fetch flag is `false` and the result ignores the remote
outcome entirely); a successful fetch populates the cache so that every
later call is served from it; a failed fetch returns the empty list and
leaves the cache unpopulated, so a later call fetches again. -/
theorem genre_list_cached_after_first_success :
    (∀ (l : List Genre) (env : TMDBEnv) (r : HttpResult GenreListResponse),
      getMovieGenreList (some l) env r = (l, some l, false)) ∧
    (∀ (gs : List Genre) (env2 : TMDBEnv) (r2 : HttpResult GenreListResponse),
      getMovieGenreList none envWithToken
          (HttpResult.response 200 (Except.ok { genres := some gs })) =
        (gs, some gs, true) ∧
      getMovieGenreList
          (getMovieGenreList none envWithToken
            (HttpResult.response 200 (Except.ok { genres := some gs }))).2.1
          env2 r2 = (gs, some gs, false)) ∧
    (∀ (env : TMDBEnv) (r : HttpResult GenreListResponse),
      fetchTMDB env "genre/movie/list" r { genres := none } = none →
      getMovieGenreList none env r = ([], none, true)) ∧
    (∀ (env : TMDBEnv) (r : HttpResult GenreListResponse),
      (getMovieGenreList none env r).2.2 = true) ∧
    (∀ (l : List Genre) (env : TMDBEnv) (r : HttpResult GenreListResponse),
      getTvShowGenreList (some l) env r = (l, some l, false)) ∧
    (∀ (gs : List Genre),
      getTvShowGenreList none envWithToken
          (HttpResult.response 200 (Except.ok { genres := some gs })) =
        (gs, some gs, true)) ∧
    (∀ (env : TMDBEnv) (r : HttpResult GenreListResponse),
      fetchTMDB env "genre/tv/list" r { genres := none } = none →
      getTvShowGenreList none env r = ([], none, true)) := by
  refine ⟨?_, ?_, ?_, ?_, ?_, ?_, ?_⟩
  · intro l env r
    rfl
  · intro gs env2 r2
    exact ⟨rfl, rfl⟩
  · intro env r h
    simp [getMovieGenreList, h]
  · intro env r
    cases hf : fetchTMDB env "genre/movie/list" r { genres := none } with
    | none => simp [getMovieGenreList, hf]
    | some resp =>
      cases hg : resp.genres with
      | none => simp [getMovieGenreList, hf, hg]
      | some gs => simp [getMovieGenreList, hf, hg]
  · intro l env r
    rfl
  · intro gs
    rfl
  · intro env r h
    simp [getTvShowGenreList, h]

/-- Witness for C8: a transport failure on a cold cache returns the empty
list, keeps the cache empty and performs a fetch. -/
theorem genre_list_cached_after_first_success_witness :
    getMovieGenreList none envWithToken HttpResult.transportError =
      ([], none, true) :=
  genre_list_cached_after_first_success.2.2.1 envWithToken
    HttpResult.transportError rfl

/-- **C9.** For every input list of genre ids, `mapMovieGenreIdsToObjects`
returns exactly the genres of the full genre list whose ids occur in the
input — each returned genre belongs to the full list and carries a
requested id, and the returned id sequence is the input sequence filtered
to the resolvable ids, so unknown ids are silently dropped and input order
is preserved; for an absent or empty input it returns the empty list
without performing any fetch (the cache state is untouched and the fetch
flag is `false`). -/
theorem genre_id_mapping_exact :
    (∀ (cache : Option (List Genre)) (env : TMDBEnv)
        (r : HttpResult GenreListResponse),
      mapMovieGenreIdsToObjects none cache env r = ([], cache, false)) ∧
    (∀ (cache : Option (List Genre)) (env : TMDBEnv)
        (r : HttpResult GenreListResponse),
      mapMovieGenreIdsToObjects (some []) cache env r = ([], cache, false)) ∧
    (∀ (ids : List Nat) (cache : Option (List Genre)) (env : TMDBEnv)
        (r : HttpResult GenreListResponse),
      ((mapMovieGenreIdsToObjects (some ids) cache env r).1.map
          (fun g => g.id)) =
        ids.filter (fun i =>
          (getMovieGenreList cache env r).1.any (fun g => g.id == i))) ∧
    (∀ (ids : List Nat) (cache : Option (List Genre)) (env : TMDBEnv)
        (r : HttpResult GenreListResponse) (g : Genre),
      g ∈ (mapMovieGenreIdsToObjects (some ids) cache env r).1 →
      g ∈ (getMovieGenreList cache env r).1 ∧ g.id ∈ ids) := by
  refine ⟨?_, ?_, ?_, ?_⟩
  · intro cache env r
    rfl
  · intro cache env r
    rfl
  · intro ids cache env r
    cases ids with
    | nil => rfl
    | cons i tl =>
      simp only [mapMovieGenreIdsToObjects, List.isEmpty_cons,
        Bool.false_eq_true, if_false]
      exact lookup_ids_exact (i :: tl) (getMovieGenreList cache env r).1
  · intro ids cache env r g hg
    cases ids with
    | nil => simp [mapMovieGenreIdsToObjects] at hg
    | cons i tl =>
      simp only [mapMovieGenreIdsToObjects, List.isEmpty_cons,
        Bool.false_eq_true, if_false] at hg
      rcases List.mem_filterMap.mp hg with ⟨j, hj, hfind⟩
      refine ⟨List.mem_of_find?_eq_some hfind, ?_⟩
      have : g.id = j := by simpa using List.find?_some hfind
      exact this ▸ hj

/-- Witness for C9: with a cached two-genre list, the request `[35, 99]`
resolves to the Comedy record (id 35, a member of the list) and drops the
unknown id 99. -/
theorem genre_id_mapping_exact_witness :
    ({ id := 35, name := "Comedy" } : Genre) ∈
      (getMovieGenreList
        (some [{ id := 18, name := "Drama" }, { id := 35, name := "Comedy" }])
        envWithToken HttpResult.transportError).1 ∧
    (35 : Nat) ∈ [35, 99] :=
  genre_id_mapping_exact.2.2.2 [35, 99]
    (some [{ id := 18, name := "Drama" }, { id := 35, name := "Comedy" }])
    envWithToken HttpResult.transportError { id := 35, name := "Comedy" }
    (by decide)

end Recommender
